import Mathlib

/-!
# WebNN element-wise `cos` and `neg` conformance fixtures

A shallow embedding of

* `external/wpt/webnn/conformance_tests/cos.https.any.js`
* `external/wpt/webnn/conformance_tests/neg.https.any.js`

The fixture tables `cosTests` and `negTests` are transcribed entry by entry, every
test case with its own copy of the data, as in the source.  JavaScript numeric
literals are kept as the exact decimal values that are written (`ℚ`), object
literals as association lists in source order, and a JavaScript exception as the
`Except.error` branch of the result.
-/

namespace WebNN

/-! ## Data model -/

/-- The error kinds named by the specification.  Neither resolver of the source
contains a `throw`; an error can only come out of the helper they call. -/
inductive Error where
  | InvalidFixture
  | UnsupportedDataType
  deriving DecidableEq, Repr

/-- The JavaScript values that reading a property of `toleranceValueDict` can give:
a number (an own property), `undefined` (no such property anywhere on the prototype
chain) or a member inherited from `Object.prototype`. -/
inductive JSValue where
  | number (q : ℚ)
  | undefined
  | inherited (key : String)
  deriving DecidableEq, Repr

/-- The object `{shape: ..., dataType: ...}` of a tensor. -/
structure Descriptor where
  shape : List Nat
  dataType : String
  deriving DecidableEq, Repr

/-- A tensor of a fixture: `'data'`, `'descriptor'` and the optional `'constant'`
flag (`none` when the key is absent). -/
structure Tensor where
  data : List ℚ
  descriptor : Descriptor
  constant : Option Bool
  deriving DecidableEq, Repr

/-- An entry of `'operators'`: each argument is an object literal binding a
parameter name to an operand name, e.g. `{'input': 'cosInput'}`. -/
structure Operator where
  name : String
  arguments : List (List (String × String))
  outputs : String
  deriving DecidableEq, Repr

/-- The `'graph'` object of a test case; it is what the tolerance resolvers
receive as `graphResources`. -/
structure Graph where
  inputs : List (String × Tensor)
  operators : List Operator
  expectedOutputs : List (String × Tensor)
  deriving DecidableEq, Repr

/-- An entry of `cosTests` or `negTests`. -/
structure TestCase where
  name : String
  graph : Graph
  deriving DecidableEq, Repr

/-- The object `{metricType: ..., value: ...}` returned by a tolerance resolver. -/
structure Tolerance where
  metricType : String
  value : JSValue
  deriving DecidableEq, Repr

/-! ## Property lookup on an object literal -/

/-- The property names every object literal inherits from `Object.prototype`. -/
def objectPrototypeKeys : List String :=
  ["constructor", "__defineGetter__", "__defineSetter__", "hasOwnProperty",
   "__lookupGetter__", "__lookupSetter__", "isPrototypeOf", "propertyIsEnumerable",
   "toString", "valueOf", "__proto__", "toLocaleString"]

/-- The expression `dict[key]` for an object literal `dict` with numeric own
properties: the own property when there is one, otherwise what the prototype chain
gives, otherwise `undefined`. -/
def getProperty (dict : List (String × ℚ)) (key : String) : JSValue :=
  match dict.lookup key with
  | some q => JSValue.number q
  | none => if key ∈ objectPrototypeKeys then JSValue.inherited key else JSValue.undefined

/-! ## The helper of `../resources/utils.js` -/

/-- Modelled from the spec: `getExpectedDataTypeOfSingleOutput` is defined in
`../resources/utils.js`, which is not among the sources.  The specification (§4.1)
has it pick the data type of the one declared output, and signal `InvalidFixture`
when the output set holds zero or several tensors. -/
def getExpectedDataTypeOfSingleOutput (expectedOutputs : List (String × Tensor)) :
    Except Error String :=
  match expectedOutputs with
  | [(_, tensor)] => Except.ok tensor.descriptor.dataType
  | _ => Except.error Error.InvalidFixture

/-! ## The tolerance resolvers -/

/-- Source: `cos.https.any.js`, lines 17-22. -/
def getCosPrecisionTolerance (graphResources : Graph) : Except Error Tolerance := do
  let toleranceValueDict : List (String × ℚ) := [("float32", 1 / 1024), ("float16", 1 / 512)]
  let expectedDataType ← getExpectedDataTypeOfSingleOutput graphResources.expectedOutputs
  return { metricType := "ATOL", value := getProperty toleranceValueDict expectedDataType }

/-- Source: `neg.https.any.js`, lines 17-22. -/
def getNegPrecisionTolerance (graphResources : Graph) : Except Error Tolerance := do
  let toleranceValueDict : List (String × ℚ) := [("float32", 0), ("float16", 0)]
  let expectedDataType ← getExpectedDataTypeOfSingleOutput graphResources.expectedOutputs
  return { metricType := "ULP", value := getProperty toleranceValueDict expectedDataType }

/-- The metric kinds of the specification's ToleranceSpec. -/
inductive MetricKind where
  | ABSOLUTE
  | ULP
  deriving DecidableEq, Repr

/-- The metric kind that a `metricType` tag of the source stands for: `'ATOL'` is the
absolute-tolerance metric, `'ULP'` the units-in-the-last-place metric. -/
def metricKind (metricType : String) : Option MetricKind :=
  if metricType = "ATOL" then some MetricKind.ABSOLUTE
  else if metricType = "ULP" then some MetricKind.ULP
  else none

/-! ## The fixture tables -/

/-- Source: `cos.https.any.js`, lines 24-288. -/
def cosTests : List TestCase := [
  { name := "cos float32 0D scalar",
    graph := {
      inputs := [
        ("cosInput", {
          data := [85.56369018554688],
          descriptor := { shape := [], dataType := "float32" },
          constant := none })],
      operators := [{ name := "cos", arguments := [[("input", "cosInput")]], outputs := "cosOutput" }],
      expectedOutputs := [
        ("cosOutput", {
          data := [-0.7380040884017944],
          descriptor := { shape := [], dataType := "float32" },
          constant := none })] } },
  { name := "cos float32 1D constant tensor",
    graph := {
      inputs := [
        ("cosInput", {
          data := [
            85.56369018554688, -45.09983825683594, -94.67750549316406,
            83.49029541015625, -31.367904663085938, 70.18042755126953,
            -90.36229705810547, -83.00758361816406, 61.51649475097656,
            -32.51877975463867, -48.3765869140625, -58.02735900878906,
            89.79197692871094, -84.53326416015625, -58.23252487182617,
            -76.14168548583984, -59.058876037597656, 77.38546752929688,
            -98.67289733886719, -63.6115608215332, 26.85724639892578,
            83.70417022705078, 76.56607055664062, -47.83436584472656],
          descriptor := { shape := [24], dataType := "float32" },
          constant := some true })],
      operators := [{ name := "cos", arguments := [[("input", "cosInput")]], outputs := "cosOutput" }],
      expectedOutputs := [
        ("cosOutput", {
          data := [
            -0.7380040884017944, 0.43789437413215637, 0.9090799689292908,
            -0.23584702610969543, 0.9988471865653992, 0.48416373133659363,
            -0.7358400821685791, 0.24218930304050446, 0.25266921520233154,
            0.4510514736175537, -0.31276169419288635, 0.09197491407394409,
            -0.2537800967693329, -0.9583188891410828, -0.11282006651163101,
            0.736129879951477, -0.80721116065979, -0.4045141637325287,
            -0.283336341381073, 0.7111190557479858, -0.1531042903661728,
            -0.43673399090766907, 0.39213326573371887, -0.7580515146255493],
          descriptor := { shape := [24], dataType := "float32" },
          constant := none })] } },
  { name := "cos float32 1D tensor",
    graph := {
      inputs := [
        ("cosInput", {
          data := [
            85.56369018554688, -45.09983825683594, -94.67750549316406,
            83.49029541015625, -31.367904663085938, 70.18042755126953,
            -90.36229705810547, -83.00758361816406, 61.51649475097656,
            -32.51877975463867, -48.3765869140625, -58.02735900878906,
            89.79197692871094, -84.53326416015625, -58.23252487182617,
            -76.14168548583984, -59.058876037597656, 77.38546752929688,
            -98.67289733886719, -63.6115608215332, 26.85724639892578,
            83.70417022705078, 76.56607055664062, -47.83436584472656],
          descriptor := { shape := [24], dataType := "float32" },
          constant := none })],
      operators := [{ name := "cos", arguments := [[("input", "cosInput")]], outputs := "cosOutput" }],
      expectedOutputs := [
        ("cosOutput", {
          data := [
            -0.7380040884017944, 0.43789437413215637, 0.9090799689292908,
            -0.23584702610969543, 0.9988471865653992, 0.48416373133659363,
            -0.7358400821685791, 0.24218930304050446, 0.25266921520233154,
            0.4510514736175537, -0.31276169419288635, 0.09197491407394409,
            -0.2537800967693329, -0.9583188891410828, -0.11282006651163101,
            0.736129879951477, -0.80721116065979, -0.4045141637325287,
            -0.283336341381073, 0.7111190557479858, -0.1531042903661728,
            -0.43673399090766907, 0.39213326573371887, -0.7580515146255493],
          descriptor := { shape := [24], dataType := "float32" },
          constant := none })] } },
  { name := "cos float32 2D tensor",
    graph := {
      inputs := [
        ("cosInput", {
          data := [
            85.56369018554688, -45.09983825683594, -94.67750549316406,
            83.49029541015625, -31.367904663085938, 70.18042755126953,
            -90.36229705810547, -83.00758361816406, 61.51649475097656,
            -32.51877975463867, -48.3765869140625, -58.02735900878906,
            89.79197692871094, -84.53326416015625, -58.23252487182617,
            -76.14168548583984, -59.058876037597656, 77.38546752929688,
            -98.67289733886719, -63.6115608215332, 26.85724639892578,
            83.70417022705078, 76.56607055664062, -47.83436584472656],
          descriptor := { shape := [4, 6], dataType := "float32" },
          constant := none })],
      operators := [{ name := "cos", arguments := [[("input", "cosInput")]], outputs := "cosOutput" }],
      expectedOutputs := [
        ("cosOutput", {
          data := [
            -0.7380040884017944, 0.43789437413215637, 0.9090799689292908,
            -0.23584702610969543, 0.9988471865653992, 0.48416373133659363,
            -0.7358400821685791, 0.24218930304050446, 0.25266921520233154,
            0.4510514736175537, -0.31276169419288635, 0.09197491407394409,
            -0.2537800967693329, -0.9583188891410828, -0.11282006651163101,
            0.736129879951477, -0.80721116065979, -0.4045141637325287,
            -0.283336341381073, 0.7111190557479858, -0.1531042903661728,
            -0.43673399090766907, 0.39213326573371887, -0.7580515146255493],
          descriptor := { shape := [4, 6], dataType := "float32" },
          constant := none })] } },
  { name := "cos float32 3D tensor",
    graph := {
      inputs := [
        ("cosInput", {
          data := [
            85.56369018554688, -45.09983825683594, -94.67750549316406,
            83.49029541015625, -31.367904663085938, 70.18042755126953,
            -90.36229705810547, -83.00758361816406, 61.51649475097656,
            -32.51877975463867, -48.3765869140625, -58.02735900878906,
            89.79197692871094, -84.53326416015625, -58.23252487182617,
            -76.14168548583984, -59.058876037597656, 77.38546752929688,
            -98.67289733886719, -63.6115608215332, 26.85724639892578,
            83.70417022705078, 76.56607055664062, -47.83436584472656],
          descriptor := { shape := [2, 3, 4], dataType := "float32" },
          constant := none })],
      operators := [{ name := "cos", arguments := [[("input", "cosInput")]], outputs := "cosOutput" }],
      expectedOutputs := [
        ("cosOutput", {
          data := [
            -0.7380040884017944, 0.43789437413215637, 0.9090799689292908,
            -0.23584702610969543, 0.9988471865653992, 0.48416373133659363,
            -0.7358400821685791, 0.24218930304050446, 0.25266921520233154,
            0.4510514736175537, -0.31276169419288635, 0.09197491407394409,
            -0.2537800967693329, -0.9583188891410828, -0.11282006651163101,
            0.736129879951477, -0.80721116065979, -0.4045141637325287,
            -0.283336341381073, 0.7111190557479858, -0.1531042903661728,
            -0.43673399090766907, 0.39213326573371887, -0.7580515146255493],
          descriptor := { shape := [2, 3, 4], dataType := "float32" },
          constant := none })] } },
  { name := "cos float32 4D tensor",
    graph := {
      inputs := [
        ("cosInput", {
          data := [
            85.56369018554688, -45.09983825683594, -94.67750549316406,
            83.49029541015625, -31.367904663085938, 70.18042755126953,
            -90.36229705810547, -83.00758361816406, 61.51649475097656,
            -32.51877975463867, -48.3765869140625, -58.02735900878906,
            89.79197692871094, -84.53326416015625, -58.23252487182617,
            -76.14168548583984, -59.058876037597656, 77.38546752929688,
            -98.67289733886719, -63.6115608215332, 26.85724639892578,
            83.70417022705078, 76.56607055664062, -47.83436584472656],
          descriptor := { shape := [2, 2, 2, 3], dataType := "float32" },
          constant := none })],
      operators := [{ name := "cos", arguments := [[("input", "cosInput")]], outputs := "cosOutput" }],
      expectedOutputs := [
        ("cosOutput", {
          data := [
            -0.7380040884017944, 0.43789437413215637, 0.9090799689292908,
            -0.23584702610969543, 0.9988471865653992, 0.48416373133659363,
            -0.7358400821685791, 0.24218930304050446, 0.25266921520233154,
            0.4510514736175537, -0.31276169419288635, 0.09197491407394409,
            -0.2537800967693329, -0.9583188891410828, -0.11282006651163101,
            0.736129879951477, -0.80721116065979, -0.4045141637325287,
            -0.283336341381073, 0.7111190557479858, -0.1531042903661728,
            -0.43673399090766907, 0.39213326573371887, -0.7580515146255493],
          descriptor := { shape := [2, 2, 2, 3], dataType := "float32" },
          constant := none })] } },
  { name := "cos float32 5D tensor",
    graph := {
      inputs := [
        ("cosInput", {
          data := [
            85.56369018554688, -45.09983825683594, -94.67750549316406,
            83.49029541015625, -31.367904663085938, 70.18042755126953,
            -90.36229705810547, -83.00758361816406, 61.51649475097656,
            -32.51877975463867, -48.3765869140625, -58.02735900878906,
            89.79197692871094, -84.53326416015625, -58.23252487182617,
            -76.14168548583984, -59.058876037597656, 77.38546752929688,
            -98.67289733886719, -63.6115608215332, 26.85724639892578,
            83.70417022705078, 76.56607055664062, -47.83436584472656],
          descriptor := { shape := [2, 1, 4, 1, 3], dataType := "float32" },
          constant := none })],
      operators := [{ name := "cos", arguments := [[("input", "cosInput")]], outputs := "cosOutput" }],
      expectedOutputs := [
        ("cosOutput", {
          data := [
            -0.7380040884017944, 0.43789437413215637, 0.9090799689292908,
            -0.23584702610969543, 0.9988471865653992, 0.48416373133659363,
            -0.7358400821685791, 0.24218930304050446, 0.25266921520233154,
            0.4510514736175537, -0.31276169419288635, 0.09197491407394409,
            -0.2537800967693329, -0.9583188891410828, -0.11282006651163101,
            0.736129879951477, -0.80721116065979, -0.4045141637325287,
            -0.283336341381073, 0.7111190557479858, -0.1531042903661728,
            -0.43673399090766907, 0.39213326573371887, -0.7580515146255493],
          descriptor := { shape := [2, 1, 4, 1, 3], dataType := "float32" },
          constant := none })] } }]

/-- Source: `neg.https.any.js`, lines 24-310. -/
def negTests : List TestCase := [
  { name := "neg float32 positive 0D scalar",
    graph := {
      inputs := [
        ("negInput", {
          data := [94.23045349121094],
          descriptor := { shape := [], dataType := "float32" },
          constant := none })],
      operators := [{ name := "neg", arguments := [[("input", "negInput")]], outputs := "negOutput" }],
      expectedOutputs := [
        ("negOutput", {
          data := [-94.23045349121094],
          descriptor := { shape := [], dataType := "float32" },
          constant := none })] } },
  { name := "neg float32 negative 0D scalar",
    graph := {
      inputs := [
        ("negInput", {
          data := [-58.334503173828125],
          descriptor := { shape := [], dataType := "float32" },
          constant := none })],
      operators := [{ name := "neg", arguments := [[("input", "negInput")]], outputs := "negOutput" }],
      expectedOutputs := [
        ("negOutput", {
          data := [58.334503173828125],
          descriptor := { shape := [], dataType := "float32" },
          constant := none })] } },
  { name := "neg float32 1D constant tensor",
    graph := {
      inputs := [
        ("negInput", {
          data := [
            -58.334503173828125, 94.23045349121094, -67.69306945800781,
            -36.0666389465332, 17.115114212036133, 59.2606315612793,
            -43.77507781982422, -14.875581741333008, 22.50856590270996,
            98.67680358886719, 2.315542221069336, -89.86896514892578,
            -14.28854751586914, 16.22245216369629, -4.688417911529541,
            -44.46965026855469, -52.139259338378906, 24.165390014648438,
            -66.4577865600586, -11.172324180603027, -25.024961471557617,
            22.26478385925293, 35.29130172729492, -86.18817138671875],
          descriptor := { shape := [24], dataType := "float32" },
          constant := some true })],
      operators := [{ name := "neg", arguments := [[("input", "negInput")]], outputs := "negOutput" }],
      expectedOutputs := [
        ("negOutput", {
          data := [
            58.334503173828125, -94.23045349121094, 67.69306945800781,
            36.0666389465332, -17.115114212036133, -59.2606315612793,
            43.77507781982422, 14.875581741333008, -22.50856590270996,
            -98.67680358886719, -2.315542221069336, 89.86896514892578,
            14.28854751586914, -16.22245216369629, 4.688417911529541,
            44.46965026855469, 52.139259338378906, -24.165390014648438,
            66.4577865600586, 11.172324180603027, 25.024961471557617,
            -22.26478385925293, -35.29130172729492, 86.18817138671875],
          descriptor := { shape := [24], dataType := "float32" },
          constant := none })] } },
  { name := "neg float32 1D tensor",
    graph := {
      inputs := [
        ("negInput", {
          data := [
            -58.334503173828125, 94.23045349121094, -67.69306945800781,
            -36.0666389465332, 17.115114212036133, 59.2606315612793,
            -43.77507781982422, -14.875581741333008, 22.50856590270996,
            98.67680358886719, 2.315542221069336, -89.86896514892578,
            -14.28854751586914, 16.22245216369629, -4.688417911529541,
            -44.46965026855469, -52.139259338378906, 24.165390014648438,
            -66.4577865600586, -11.172324180603027, -25.024961471557617,
            22.26478385925293, 35.29130172729492, -86.18817138671875],
          descriptor := { shape := [24], dataType := "float32" },
          constant := none })],
      operators := [{ name := "neg", arguments := [[("input", "negInput")]], outputs := "negOutput" }],
      expectedOutputs := [
        ("negOutput", {
          data := [
            58.334503173828125, -94.23045349121094, 67.69306945800781,
            36.0666389465332, -17.115114212036133, -59.2606315612793,
            43.77507781982422, 14.875581741333008, -22.50856590270996,
            -98.67680358886719, -2.315542221069336, 89.86896514892578,
            14.28854751586914, -16.22245216369629, 4.688417911529541,
            44.46965026855469, 52.139259338378906, -24.165390014648438,
            66.4577865600586, 11.172324180603027, 25.024961471557617,
            -22.26478385925293, -35.29130172729492, 86.18817138671875],
          descriptor := { shape := [24], dataType := "float32" },
          constant := none })] } },
  { name := "neg float32 2D tensor",
    graph := {
      inputs := [
        ("negInput", {
          data := [
            -58.334503173828125, 94.23045349121094, -67.69306945800781,
            -36.0666389465332, 17.115114212036133, 59.2606315612793,
            -43.77507781982422, -14.875581741333008, 22.50856590270996,
            98.67680358886719, 2.315542221069336, -89.86896514892578,
            -14.28854751586914, 16.22245216369629, -4.688417911529541,
            -44.46965026855469, -52.139259338378906, 24.165390014648438,
            -66.4577865600586, -11.172324180603027, -25.024961471557617,
            22.26478385925293, 35.29130172729492, -86.18817138671875],
          descriptor := { shape := [4, 6], dataType := "float32" },
          constant := none })],
      operators := [{ name := "neg", arguments := [[("input", "negInput")]], outputs := "negOutput" }],
      expectedOutputs := [
        ("negOutput", {
          data := [
            58.334503173828125, -94.23045349121094, 67.69306945800781,
            36.0666389465332, -17.115114212036133, -59.2606315612793,
            43.77507781982422, 14.875581741333008, -22.50856590270996,
            -98.67680358886719, -2.315542221069336, 89.86896514892578,
            14.28854751586914, -16.22245216369629, 4.688417911529541,
            44.46965026855469, 52.139259338378906, -24.165390014648438,
            66.4577865600586, 11.172324180603027, 25.024961471557617,
            -22.26478385925293, -35.29130172729492, 86.18817138671875],
          descriptor := { shape := [4, 6], dataType := "float32" },
          constant := none })] } },
  { name := "neg float32 3D tensor",
    graph := {
      inputs := [
        ("negInput", {
          data := [
            -58.334503173828125, 94.23045349121094, -67.69306945800781,
            -36.0666389465332, 17.115114212036133, 59.2606315612793,
            -43.77507781982422, -14.875581741333008, 22.50856590270996,
            98.67680358886719, 2.315542221069336, -89.86896514892578,
            -14.28854751586914, 16.22245216369629, -4.688417911529541,
            -44.46965026855469, -52.139259338378906, 24.165390014648438,
            -66.4577865600586, -11.172324180603027, -25.024961471557617,
            22.26478385925293, 35.29130172729492, -86.18817138671875],
          descriptor := { shape := [2, 3, 4], dataType := "float32" },
          constant := none })],
      operators := [{ name := "neg", arguments := [[("input", "negInput")]], outputs := "negOutput" }],
      expectedOutputs := [
        ("negOutput", {
          data := [
            58.334503173828125, -94.23045349121094, 67.69306945800781,
            36.0666389465332, -17.115114212036133, -59.2606315612793,
            43.77507781982422, 14.875581741333008, -22.50856590270996,
            -98.67680358886719, -2.315542221069336, 89.86896514892578,
            14.28854751586914, -16.22245216369629, 4.688417911529541,
            44.46965026855469, 52.139259338378906, -24.165390014648438,
            66.4577865600586, 11.172324180603027, 25.024961471557617,
            -22.26478385925293, -35.29130172729492, 86.18817138671875],
          descriptor := { shape := [2, 3, 4], dataType := "float32" },
          constant := none })] } },
  { name := "neg float32 4D tensor",
    graph := {
      inputs := [
        ("negInput", {
          data := [
            -58.334503173828125, 94.23045349121094, -67.69306945800781,
            -36.0666389465332, 17.115114212036133, 59.2606315612793,
            -43.77507781982422, -14.875581741333008, 22.50856590270996,
            98.67680358886719, 2.315542221069336, -89.86896514892578,
            -14.28854751586914, 16.22245216369629, -4.688417911529541,
            -44.46965026855469, -52.139259338378906, 24.165390014648438,
            -66.4577865600586, -11.172324180603027, -25.024961471557617,
            22.26478385925293, 35.29130172729492, -86.18817138671875],
          descriptor := { shape := [2, 2, 2, 3], dataType := "float32" },
          constant := none })],
      operators := [{ name := "neg", arguments := [[("input", "negInput")]], outputs := "negOutput" }],
      expectedOutputs := [
        ("negOutput", {
          data := [
            58.334503173828125, -94.23045349121094, 67.69306945800781,
            36.0666389465332, -17.115114212036133, -59.2606315612793,
            43.77507781982422, 14.875581741333008, -22.50856590270996,
            -98.67680358886719, -2.315542221069336, 89.86896514892578,
            14.28854751586914, -16.22245216369629, 4.688417911529541,
            44.46965026855469, 52.139259338378906, -24.165390014648438,
            66.4577865600586, 11.172324180603027, 25.024961471557617,
            -22.26478385925293, -35.29130172729492, 86.18817138671875],
          descriptor := { shape := [2, 2, 2, 3], dataType := "float32" },
          constant := none })] } },
  { name := "neg float32 5D tensor",
    graph := {
      inputs := [
        ("negInput", {
          data := [
            -58.334503173828125, 94.23045349121094, -67.69306945800781,
            -36.0666389465332, 17.115114212036133, 59.2606315612793,
            -43.77507781982422, -14.875581741333008, 22.50856590270996,
            98.67680358886719, 2.315542221069336, -89.86896514892578,
            -14.28854751586914, 16.22245216369629, -4.688417911529541,
            -44.46965026855469, -52.139259338378906, 24.165390014648438,
            -66.4577865600586, -11.172324180603027, -25.024961471557617,
            22.26478385925293, 35.29130172729492, -86.18817138671875],
          descriptor := { shape := [2, 1, 4, 1, 3], dataType := "float32" },
          constant := none })],
      operators := [{ name := "neg", arguments := [[("input", "negInput")]], outputs := "negOutput" }],
      expectedOutputs := [
        ("negOutput", {
          data := [
            58.334503173828125, -94.23045349121094, 67.69306945800781,
            36.0666389465332, -17.115114212036133, -59.2606315612793,
            43.77507781982422, 14.875581741333008, -22.50856590270996,
            -98.67680358886719, -2.315542221069336, 89.86896514892578,
            14.28854751586914, -16.22245216369629, 4.688417911529541,
            44.46965026855469, 52.139259338378906, -24.165390014648438,
            66.4577865600586, 11.172324180603027, 25.024961471557617,
            -22.26478385925293, -35.29130172729492, 86.18817138671875],
          descriptor := { shape := [2, 1, 4, 1, 3], dataType := "float32" },
          constant := none })] } }]

/-! ## Graphs used as concrete instances -/

/-- The graph of the first entry of `negTests`, re-typed as `float16`. -/
def float16NegGraph : Graph :=
  { inputs := [("negInput",
      { data := [94.23045349121094], descriptor := { shape := [], dataType := "float16" },
        constant := none })],
    operators := [{ name := "neg", arguments := [[("input", "negInput")]], outputs := "negOutput" }],
    expectedOutputs := [("negOutput",
      { data := [-94.23045349121094], descriptor := { shape := [], dataType := "float16" },
        constant := none })] }

/-- The graph of the first entry of `cosTests`, re-typed as `float16`. -/
def float16CosGraph : Graph :=
  { inputs := [("cosInput",
      { data := [85.56369018554688], descriptor := { shape := [], dataType := "float16" },
        constant := none })],
    operators := [{ name := "cos", arguments := [[("input", "cosInput")]], outputs := "cosOutput" }],
    expectedOutputs := [("cosOutput",
      { data := [-0.7380040884017944], descriptor := { shape := [], dataType := "float16" },
        constant := none })] }

/-- The graph of the first entry of `cosTests`. -/
def float32CosGraph : Graph :=
  { inputs := [("cosInput",
      { data := [85.56369018554688], descriptor := { shape := [], dataType := "float32" },
        constant := none })],
    operators := [{ name := "cos", arguments := [[("input", "cosInput")]], outputs := "cosOutput" }],
    expectedOutputs := [("cosOutput",
      { data := [-0.7380040884017944], descriptor := { shape := [], dataType := "float32" },
        constant := none })] }

/-- The first entry of `cosTests`. -/
def cosScalarCase : TestCase :=
  { name := "cos float32 0D scalar", graph := float32CosGraph }

/-- The first entry of `negTests`. -/
def negScalarCase : TestCase :=
  { name := "neg float32 positive 0D scalar",
    graph := {
      inputs := [("negInput",
        { data := [94.23045349121094], descriptor := { shape := [], dataType := "float32" },
          constant := none })],
      operators :=
        [{ name := "neg", arguments := [[("input", "negInput")]], outputs := "negOutput" }],
      expectedOutputs := [("negOutput",
        { data := [-94.23045349121094], descriptor := { shape := [], dataType := "float32" },
          constant := none })] } }

/-- A one-output graph whose output is an `int32` tensor, a data type of the WebNN
API for which neither resolver has a table entry. -/
def int32Graph : Graph :=
  { inputs := [("input",
      { data := [7], descriptor := { shape := [1], dataType := "int32" }, constant := none })],
    operators := [{ name := "neg", arguments := [[("input", "input")]], outputs := "output" }],
    expectedOutputs := [("output",
      { data := [-7], descriptor := { shape := [1], dataType := "int32" }, constant := none })] }

/-- A tensor with its declared shape forgotten. -/
def Tensor.withoutShape (t : Tensor) : Tensor :=
  { t with descriptor := { t.descriptor with shape := [] } }

/-- A graph with the declared shape of every tensor forgotten. -/
def Graph.withoutShapes (g : Graph) : Graph :=
  { g with
    inputs := g.inputs.map (fun p => (p.1, p.2.withoutShape)),
    expectedOutputs := g.expectedOutputs.map (fun p => (p.1, p.2.withoutShape)) }

/-- A tensor with its `'constant'` key removed. -/
def Tensor.withoutConstant (t : Tensor) : Tensor :=
  { t with constant := none }

/-- A graph with the `'constant'` key of every tensor removed. -/
def Graph.withoutConstantFlags (g : Graph) : Graph :=
  { g with
    inputs := g.inputs.map (fun p => (p.1, p.2.withoutConstant)),
    expectedOutputs := g.expectedOutputs.map (fun p => (p.1, p.2.withoutConstant)) }

/-- The declared shapes of the input tensors of the cases of a suite, in order. -/
def inputShapes (suite : List TestCase) : List (List (List Nat)) :=
  suite.map (fun tc => tc.graph.inputs.map (fun p => p.2.descriptor.shape))

/-- The flat data of the input tensors of a case, in order. -/
def inputData (tc : TestCase) : List (List ℚ) :=
  tc.graph.inputs.map (fun p => p.2.data)

/-- The flat data of the expected-output tensors of a case, in order. -/
def expectedData (tc : TestCase) : List (List ℚ) :=
  tc.graph.expectedOutputs.map (fun p => p.2.data)

/-- The `constant` flags of the input tensors of a case, in order. -/
def constantFlags (tc : TestCase) : List (Option Bool) :=
  tc.graph.inputs.map (fun p => p.2.constant)

/-- A case none of whose input tensors is a 0D scalar (none has the shape `[]`): the
1D to 5D cases of the suites. -/
def isTensorCase (tc : TestCase) : Bool :=
  tc.graph.inputs.all (fun p => !p.2.descriptor.shape.isEmpty)

/-! ## Real-number cosine -/

/-- The value `e` is within `value` of the real-number cosine of `x`. -/
def cosWithin (value x e : ℚ) : Prop :=
  |Real.cos (x : ℝ) - (e : ℝ)| ≤ (value : ℝ)

/-- The Taylor polynomial of the cosine of degree 6. -/
def cosTaylor (z : ℚ) : ℚ := 1 - z ^ 2 / 2 + z ^ 4 / 24 - z ^ 6 / 720

/-! ## Registration with the test harness -/

/-- The graph runner of `../resources/utils.js` that both files hand on to the
harness; only its identity matters here. -/
inductive GraphRunner where
  | buildAndExecuteGraph
  deriving DecidableEq, Repr

/-- The callback `() => assert_implements(navigator.ml, 'missing navigator.ml')`. -/
structure AssertImplements where
  condition : Bool
  description : String
  deriving DecidableEq, Repr

/-- A call by which a file hands a test to the harness while it loads:
`webnn_conformance_test(buildAndExecuteGraph, toleranceFunc, test)` or
`test(() => assert_implements(...))`. -/
inductive Registration where
  | webnn_conformance_test (buildAndExecuteGraphFunc : GraphRunner)
      (toleranceFunc : Graph → Except Error Tolerance) (testData : TestCase)
  | test (body : AssertImplements)

/-- Source: `cos.https.any.js`, lines 290-297.  The state is the list of calls received
by the harness, empty when the file starts to load; `navigatorMl` is the truthiness of
`navigator.ml`, and `forEach` visits the entries in order. -/
def registerCosTests (navigatorMl : Bool) : List Registration :=
  if navigatorMl then
    cosTests.foldl
      (fun registered test => registered ++
        [Registration.webnn_conformance_test GraphRunner.buildAndExecuteGraph
          getCosPrecisionTolerance test])
      []
  else
    [Registration.test { condition := navigatorMl, description := "missing navigator.ml" }]

/-- Source: `neg.https.any.js`, lines 312-319. -/
def registerNegTests (navigatorMl : Bool) : List Registration :=
  if navigatorMl then
    negTests.foldl
      (fun registered test => registered ++
        [Registration.webnn_conformance_test GraphRunner.buildAndExecuteGraph
          getNegPrecisionTolerance test])
      []
  else
    [Registration.test { condition := navigatorMl, description := "missing navigator.ml" }]

/-- The fixtures among the calls received by the harness. -/
def fixturesOf (registered : List Registration) : List TestCase :=
  registered.filterMap (fun r =>
    match r with
    | Registration.webnn_conformance_test _ _ testData => some testData
    | Registration.test _ => none)

/-! ## The abort tests of `language-model-api-abort.https.any.js` -/

/-- The reason a promise is rejected with: one of the two abort-contract violations
of the specification, or anything else. -/
inductive Reason where
  | IgnoredCancellation
  | WrongErrorKind
  | other (description : String)
  deriving DecidableEq, Repr

/-- How a promise settles. -/
inductive Settlement where
  | fulfilled
  | rejected (reason : Reason)
  deriving DecidableEq, Repr

/-- The completion of a call expression: it throws, or it returns a promise, given
by the way that promise settles. -/
inductive Completion where
  | throws (reason : Reason)
  | returns (promise : Settlement)
  deriving DecidableEq, Repr

/-- The statements found in the bodies of the abort tests: a call whose value is
dropped (`f(...);`) and a call whose value is awaited (`const x = await f(...);`). -/
inductive Statement where
  | expression (call : Completion)
  | awaitExpression (call : Completion)
  deriving DecidableEq, Repr

/-- The promise returned by an `async` function with the given body and no `return`:
an exception thrown by a call, or by the `await` of a rejected promise, rejects it;
the promise of a call that is not awaited is dropped; reaching the end fulfils it. -/
def asyncFunction : List Statement → Settlement
  | [] => Settlement.fulfilled
  | Statement.expression (Completion.throws reason) :: _ => Settlement.rejected reason
  | Statement.expression (Completion.returns _) :: rest => asyncFunction rest
  | Statement.awaitExpression (Completion.throws reason) :: _ => Settlement.rejected reason
  | Statement.awaitExpression (Completion.returns (Settlement.rejected reason)) :: _ =>
      Settlement.rejected reason
  | Statement.awaitExpression (Completion.returns Settlement.fulfilled) :: rest =>
      asyncFunction rest

/-- Source: lines 4-10, the body of "Aborting AILanguageModelFactory.create().";
`testAbort` is the completion of the call `testAbort(t, ...)` of `resources/utils.js`. -/
def abortCreateTest (testAbort : Completion) : Settlement :=
  asyncFunction [Statement.expression testAbort]

/-- Source: lines 12-19, the body of "Aborting AILanguageModel.clone()."; `create` is the
completion of `ai.languageModel.create()`. -/
def abortCloneTest (create testAbort : Completion) : Settlement :=
  asyncFunction [Statement.awaitExpression create, Statement.expression testAbort]

/-- Source: lines 21-28, the body of "Aborting AILanguageModel.prompt().". -/
def abortPromptTest (create testAbort : Completion) : Settlement :=
  asyncFunction [Statement.awaitExpression create, Statement.expression testAbort]

/-! ## Lemmas on the resolvers -/

theorem getProperty_cos_float32 :
    getProperty [("float32", 1 / 1024), ("float16", 1 / 512)] "float32"
      = JSValue.number (1 / 1024) := by
  simp [getProperty, List.lookup]

theorem getProperty_cos_float16 :
    getProperty [("float32", 1 / 1024), ("float16", 1 / 512)] "float16"
      = JSValue.number (1 / 512) := by
  simp [getProperty, List.lookup]

theorem getProperty_absent (a b : ℚ) (key : String)
    (h32 : key ≠ "float32") (h16 : key ≠ "float16") :
    getProperty [("float32", a), ("float16", b)] key
      = if key ∈ objectPrototypeKeys then JSValue.inherited key else JSValue.undefined := by
  have e32 : (key == "float32") = false := by simpa using h32
  have e16 : (key == "float16") = false := by simpa using h16
  simp [getProperty, List.lookup, e32, e16]

theorem getCos_single (g : Graph) (name : String) (t : Tensor)
    (h : g.expectedOutputs = [(name, t)]) :
    getCosPrecisionTolerance g = Except.ok
      { metricType := "ATOL",
        value := getProperty [("float32", 1 / 1024), ("float16", 1 / 512)] t.descriptor.dataType } := by
  simp [getCosPrecisionTolerance, getExpectedDataTypeOfSingleOutput, h, bind, Except.bind, pure,
    Except.pure]

theorem getNeg_single (g : Graph) (name : String) (t : Tensor)
    (h : g.expectedOutputs = [(name, t)]) :
    getNegPrecisionTolerance g = Except.ok
      { metricType := "ULP",
        value := getProperty [("float32", 0), ("float16", 0)] t.descriptor.dataType } := by
  simp [getNegPrecisionTolerance, getExpectedDataTypeOfSingleOutput, h, bind, Except.bind, pure,
    Except.pure]

theorem getCos_float32 (g : Graph) (name : String) (t : Tensor)
    (h : g.expectedOutputs = [(name, t)]) (hd : t.descriptor.dataType = "float32") :
    getCosPrecisionTolerance g
      = Except.ok { metricType := "ATOL", value := JSValue.number (1 / 1024) } := by
  rw [getCos_single g name t h, hd, getProperty_cos_float32]

/-! ## C1: the tolerance of `neg` -/

/-- C1: for every graphResources whose single expected output has data type
float32 or float16, `getNegPrecisionTolerance` returns the tolerance with
metricType `'ULP'` and value exactly 0. -/
theorem neg_tolerance_is_ulp_zero (g : Graph) (name : String) (t : Tensor)
    (hsingle : g.expectedOutputs = [(name, t)])
    (hsupported : t.descriptor.dataType = "float32" ∨ t.descriptor.dataType = "float16") :
    getNegPrecisionTolerance g
      = Except.ok { metricType := "ULP", value := JSValue.number 0 } := by
  rw [getNeg_single g name t hsingle]
  rcases hsupported with h | h <;> rw [h] <;> simp [getProperty, List.lookup]

theorem neg_tolerance_is_ulp_zero_witness :
    getNegPrecisionTolerance float16NegGraph
      = Except.ok { metricType := "ULP", value := JSValue.number 0 } :=
  neg_tolerance_is_ulp_zero float16NegGraph "negOutput"
    { data := [-94.23045349121094], descriptor := { shape := [], dataType := "float16" },
      constant := none } rfl (Or.inr rfl)

/-! ## C2: the tolerance of `cos` grows as precision drops -/

/-- C2: float16 has lower precision than float32, and the value that
`getCosPrecisionTolerance` returns for a float16 output is strictly greater than the
value it returns for a float32 output. -/
theorem cos_tolerance_lower_precision_is_greater (g16 g32 : Graph) (n16 n32 : String)
    (t16 t32 : Tensor)
    (h16 : g16.expectedOutputs = [(n16, t16)]) (hd16 : t16.descriptor.dataType = "float16")
    (h32 : g32.expectedOutputs = [(n32, t32)]) (hd32 : t32.descriptor.dataType = "float32") :
    ∃ v16 v32 : ℚ,
      getCosPrecisionTolerance g16
        = Except.ok { metricType := "ATOL", value := JSValue.number v16 } ∧
      getCosPrecisionTolerance g32
        = Except.ok { metricType := "ATOL", value := JSValue.number v32 } ∧
      v32 < v16 := by
  refine ⟨1 / 512, 1 / 1024, ?_, ?_, by norm_num⟩
  · rw [getCos_single g16 n16 t16 h16, hd16, getProperty_cos_float16]
  · rw [getCos_single g32 n32 t32 h32, hd32, getProperty_cos_float32]

theorem cos_tolerance_lower_precision_is_greater_witness :
    ∃ v16 v32 : ℚ,
      getCosPrecisionTolerance float16CosGraph
        = Except.ok { metricType := "ATOL", value := JSValue.number v16 } ∧
      getCosPrecisionTolerance float32CosGraph
        = Except.ok { metricType := "ATOL", value := JSValue.number v32 } ∧
      v32 < v16 :=
  cos_tolerance_lower_precision_is_greater float16CosGraph float32CosGraph "cosOutput" "cosOutput"
    { data := [-0.7380040884017944], descriptor := { shape := [], dataType := "float16" },
      constant := none }
    { data := [-0.7380040884017944], descriptor := { shape := [], dataType := "float32" },
      constant := none }
    rfl rfl rfl rfl

/-! ## C3: the tolerance of `cos` -/

/-- C3: for every graphResources whose single expected output is float32 or float16,
`getCosPrecisionTolerance` returns a tolerance whose metricType is the
absolute-tolerance metric (the tag `'ATOL'` of the source, the specification's
ABSOLUTE) and whose value is a non-negative number: exactly 1/1024 for float32 and
exactly 1/512 for float16. -/
theorem cos_tolerance_is_absolute (g : Graph) (name : String) (t : Tensor)
    (hsingle : g.expectedOutputs = [(name, t)])
    (hsupported : t.descriptor.dataType = "float32" ∨ t.descriptor.dataType = "float16") :
    ∃ v : ℚ,
      getCosPrecisionTolerance g
        = Except.ok { metricType := "ATOL", value := JSValue.number v } ∧
      metricKind "ATOL" = some MetricKind.ABSOLUTE ∧
      0 ≤ v ∧
      (t.descriptor.dataType = "float32" → v = 1 / 1024) ∧
      (t.descriptor.dataType = "float16" → v = 1 / 512) := by
  rcases hsupported with h | h
  · refine ⟨1 / 1024, ?_, by decide, by norm_num, fun _ => rfl, fun h16 => ?_⟩
    · rw [getCos_single g name t hsingle, h, getProperty_cos_float32]
    · rw [h] at h16
      exact absurd h16 (by decide)
  · refine ⟨1 / 512, ?_, by decide, by norm_num, fun h32 => ?_, fun _ => rfl⟩
    · rw [getCos_single g name t hsingle, h, getProperty_cos_float16]
    · rw [h] at h32
      exact absurd h32 (by decide)

theorem cos_tolerance_is_absolute_witness :
    ∃ v : ℚ,
      getCosPrecisionTolerance float32CosGraph
        = Except.ok { metricType := "ATOL", value := JSValue.number v } ∧
      metricKind "ATOL" = some MetricKind.ABSOLUTE ∧
      0 ≤ v ∧
      ("float32" = "float32" → v = 1 / 1024) ∧
      ("float32" = "float16" → v = 1 / 512) :=
  cos_tolerance_is_absolute float32CosGraph "cosOutput"
    { data := [-0.7380040884017944], descriptor := { shape := [], dataType := "float32" },
      constant := none }
    rfl (Or.inl rfl)

/-! ## C4: data types without a table entry -/

/-- C4, as stated, fails: on a one-output graph whose output is `int32`, both
resolvers return a tolerance object (with `value` undefined); neither fails with
`UnsupportedDataType`. -/
theorem unsupported_data_type_is_not_signalled :
    getCosPrecisionTolerance int32Graph
        = Except.ok { metricType := "ATOL", value := JSValue.undefined } ∧
      getNegPrecisionTolerance int32Graph
        = Except.ok { metricType := "ULP", value := JSValue.undefined } ∧
      getCosPrecisionTolerance int32Graph ≠ Except.error Error.UnsupportedDataType ∧
      getNegPrecisionTolerance int32Graph ≠ Except.error Error.UnsupportedDataType := by
  have hc : getCosPrecisionTolerance int32Graph
      = Except.ok { metricType := "ATOL", value := JSValue.undefined } := by
    rw [getCos_single int32Graph "output" _ rfl]
    rw [getProperty_absent _ _ _ (by decide) (by decide)]
    simp [objectPrototypeKeys]
  have hn : getNegPrecisionTolerance int32Graph
      = Except.ok { metricType := "ULP", value := JSValue.undefined } := by
    rw [getNeg_single int32Graph "output" _ rfl]
    rw [getProperty_absent _ _ _ (by decide) (by decide)]
    simp [objectPrototypeKeys]
  refine ⟨hc, hn, ?_, ?_⟩
  · rw [hc]; simp
  · rw [hn]; simp

/-- C4, amended: for every graphResources whose single expected output has a data
type other than float32 and float16, neither resolver raises an error: each returns
a tolerance with its usual metricType (`'ATOL'` for cos, `'ULP'` for neg) and one and
the same value, which is not a number; it is `undefined` whenever the data type is
not the name of a member of `Object.prototype`. -/
theorem unsupported_data_type_gives_non_numeric_value (g : Graph) (name : String) (t : Tensor)
    (hsingle : g.expectedOutputs = [(name, t)])
    (h32 : t.descriptor.dataType ≠ "float32") (h16 : t.descriptor.dataType ≠ "float16") :
    ∃ v : JSValue,
      getCosPrecisionTolerance g = Except.ok { metricType := "ATOL", value := v } ∧
      getNegPrecisionTolerance g = Except.ok { metricType := "ULP", value := v } ∧
      (∀ q : ℚ, v ≠ JSValue.number q) ∧
      (t.descriptor.dataType ∉ objectPrototypeKeys → v = JSValue.undefined) := by
  refine ⟨if t.descriptor.dataType ∈ objectPrototypeKeys
      then JSValue.inherited t.descriptor.dataType else JSValue.undefined, ?_, ?_, ?_, ?_⟩
  · rw [getCos_single g name t hsingle, getProperty_absent _ _ _ h32 h16]
  · rw [getNeg_single g name t hsingle, getProperty_absent _ _ _ h32 h16]
  · intro q
    split <;> simp
  · intro hk
    simp [hk]

theorem unsupported_data_type_gives_non_numeric_value_witness :
    ∃ v : JSValue,
      getCosPrecisionTolerance int32Graph = Except.ok { metricType := "ATOL", value := v } ∧
      getNegPrecisionTolerance int32Graph = Except.ok { metricType := "ULP", value := v } ∧
      (∀ q : ℚ, v ≠ JSValue.number q) ∧
      ("int32" ∉ objectPrototypeKeys → v = JSValue.undefined) :=
  unsupported_data_type_gives_non_numeric_value int32Graph "output"
    { data := [-7], descriptor := { shape := [1], dataType := "int32" }, constant := none }
    rfl (by decide) (by decide)

/-! ## C5: the `neg` fixtures -/

/-- C5: for every test case of `negTests`, the expected output data are the input
data negated element by element, as exact decimal values, and the two sequences have
the same length. -/
theorem neg_expected_is_negated_input :
    ∀ tc ∈ negTests, ∀ inp ∈ tc.graph.inputs, ∀ out ∈ tc.graph.expectedOutputs,
      out.2.data.length = inp.2.data.length ∧
      out.2.data = inp.2.data.map (fun x => -x) ∧
      ∀ (i : Nat) (hi : i < inp.2.data.length) (ho : i < out.2.data.length),
        out.2.data[i] = -inp.2.data[i] := by
  have hall : ∀ tc ∈ negTests, ∀ inp ∈ tc.graph.inputs, ∀ out ∈ tc.graph.expectedOutputs,
      out.2.data = inp.2.data.map (fun x => -x) := by
    simp [negTests]
  intro tc htc inp hinp out hout
  have hmap := hall tc htc inp hinp out hout
  refine ⟨by rw [hmap, List.length_map], hmap, ?_⟩
  intro i hi ho
  simp [hmap]

theorem neg_expected_is_negated_input_witness :
    negScalarCase ∈ negTests ∧
      ∀ inp ∈ negScalarCase.graph.inputs, ∀ out ∈ negScalarCase.graph.expectedOutputs,
        out.2.data.length = inp.2.data.length ∧
        out.2.data = inp.2.data.map (fun x => -x) ∧
        ∀ (i : Nat) (hi : i < inp.2.data.length) (ho : i < out.2.data.length),
          out.2.data[i] = -inp.2.data[i] :=
  ⟨by simp [negTests, negScalarCase],
   neg_expected_is_negated_input negScalarCase (by simp [negTests, negScalarCase])⟩

/-! ## The cosine of a rational, by argument reduction and a Taylor polynomial -/

theorem cos_sub_taylor_le (z : ℝ) (hz : |z| ≤ 1) :
    |Real.cos z - (1 - z ^ 2 / 2 + z ^ 4 / 24 - z ^ 6 / 720)| ≤ 1 / 35840 := by
  have habs : Complex.abs ((z : ℂ) * Complex.I) = |z| := by simp
  have hb := Complex.exp_bound (x := (z : ℂ) * Complex.I) (by rw [habs]; exact hz)
    (n := 8) (by norm_num)
  have hre : (Complex.exp ((z : ℂ) * Complex.I)
      - ∑ m ∈ Finset.range 8, ((z : ℂ) * Complex.I) ^ m / (m.factorial : ℂ)).re
      = Real.cos z - (1 - z ^ 2 / 2 + z ^ 4 / 24 - z ^ 6 / 720) := by
    rw [Complex.sub_re, Complex.exp_ofReal_mul_I_re]
    congr 1
    simp only [Finset.sum_range_succ, Finset.range_zero, Finset.sum_empty, mul_pow]
    have h2 : Complex.I ^ 2 = -1 := Complex.I_sq
    have h3 : Complex.I ^ 3 = -Complex.I := by rw [pow_succ, h2]; ring
    have h4 : Complex.I ^ 4 = 1 := by rw [pow_succ, h3]; ring_nf; rw [h2]; ring
    have h5 : Complex.I ^ 5 = Complex.I := by rw [pow_succ, h4]; ring
    have h6 : Complex.I ^ 6 = -1 := by rw [pow_succ, h5]; ring_nf; rw [h2]
    have h7 : Complex.I ^ 7 = -Complex.I := by rw [pow_succ, h6]; ring
    rw [h2, h3, h4, h5, h6, h7]
    simp [Nat.factorial, ← Complex.ofReal_pow]
    ring
  rw [← hre]
  refine (Complex.abs_re_le_abs _).trans (hb.trans ?_)
  rw [habs]
  have hpow : |z| ^ 8 ≤ 1 := pow_le_one₀ (abs_nonneg z) hz
  have hfac : ((Nat.succ 8 : ℕ) : ℝ) * (((Nat.factorial 8 : ℕ) : ℝ) * ((8 : ℕ) : ℝ))⁻¹
      = 1 / 35840 := by
    norm_num [Nat.factorial]
  rw [hfac]
  nlinarith [abs_nonneg z]

theorem cos_sub_cos_le (a b : ℝ) : |Real.cos a - Real.cos b| ≤ |a - b| := by
  rw [Real.cos_sub_cos]
  have h1 : |Real.sin ((a + b) / 2)| ≤ 1 := Real.abs_sin_le_one _
  have h2 : |Real.sin ((a - b) / 2)| ≤ |(a - b) / 2| := Real.abs_sin_le_abs
  have h3 : |(a - b) / 2| = |a - b| / 2 := by rw [abs_div]; norm_num
  rw [abs_mul, abs_mul, abs_neg, abs_two]
  have h4 := abs_nonneg (Real.sin ((a + b) / 2))
  have h5 := abs_nonneg (Real.sin ((a - b) / 2))
  nlinarith

theorem abs_double_sub_le (c c0 cz d e σ : ℝ) (hσ : σ = 1 ∨ σ = -1)
    (ht : |cz - c0| ≤ 1 / 35840) (hl : |c - cz| ≤ d) (hc : |c| ≤ 1) (hd : d ≤ 1 / 2)
    (hu : σ * (2 * c0 ^ 2 - 1) - e + 6 * (d + 1 / 35840) ≤ 1 / 1024)
    (hl2 : -(1 / 1024) ≤ σ * (2 * c0 ^ 2 - 1) - e - 6 * (d + 1 / 35840)) :
    |σ * (2 * c ^ 2 - 1) - e| ≤ 1 / 1024 := by
  obtain ⟨t1, t2⟩ := abs_le.mp ht
  obtain ⟨l1, l2⟩ := abs_le.mp hl
  obtain ⟨c1, c2⟩ := abs_le.mp hc
  have hu1 : c - c0 ≤ d + 1 / 35840 := by linarith only [t2, l2]
  have hu2 : -(d + 1 / 35840) ≤ c - c0 := by linarith only [t1, l1]
  have hsum1 : c + c0 ≤ 3 := by linarith only [hu2, c2, hd]
  have hsum2 : -3 ≤ c + c0 := by linarith only [hu1, c1, hd]
  have hd0 : 0 ≤ d + 1 / 35840 := by linarith only [hu1, hu2]
  have hprod : |(c - c0) * (c + c0)| ≤ (d + 1 / 35840) * 3 := by
    rw [abs_mul]
    exact mul_le_mul (abs_le.mpr ⟨hu2, hu1⟩) (abs_le.mpr ⟨hsum2, hsum1⟩) (abs_nonneg _) hd0
  obtain ⟨p1, p2⟩ := abs_le.mp hprod
  have hfac : 2 * c ^ 2 - 2 * c0 ^ 2 = 2 * ((c - c0) * (c + c0)) := by ring
  rw [abs_le]
  rcases hσ with h | h <;> rw [h] at hu hl2 ⊢ <;> constructor <;>
    linarith only [hu, hl2, p1, p2, hfac]

/-- A certificate for `|cos x - e| ≤ 1/1024`: with `s = ±1` and `n` half-turns,
`(s * x - n * π) / 2` lies within `d` of the rational `z0` with `|z0| ≤ 1`, and the
value `(-1) ^ n * (2 * cosTaylor z0 ^ 2 - 1)` is within `1/1024 - 6 * (d + 1/35840)`
of `e`. -/
theorem abs_cos_sub_le_of_certificate (x e s z0 d : ℚ) (n : ℕ)
    (hs : s = 1 ∨ s = -1)
    (hz0l : -1 ≤ z0) (hz0u : z0 ≤ 1) (hd : d ≤ 1 / 2)
    (hlo : 2 * z0 - 2 * d ≤ s * x - n * (314159265358979323847 / 10 ^ 20))
    (hhi : s * x - n * (314159265358979323846 / 10 ^ 20) ≤ 2 * z0 + 2 * d)
    (hu : (-1) ^ n * (2 * cosTaylor z0 ^ 2 - 1) - e + 6 * (d + 1 / 35840) ≤ 1 / 1024)
    (hl : -(1 / 1024) ≤ (-1) ^ n * (2 * cosTaylor z0 ^ 2 - 1) - e - 6 * (d + 1 / 35840)) :
    cosWithin (1 / 1024) x e := by
  unfold cosWithin
  -- the hypotheses, over the reals
  have hz0l' := (Rat.cast_le (K := ℝ)).mpr hz0l
  have hz0u' := (Rat.cast_le (K := ℝ)).mpr hz0u
  have hd' := (Rat.cast_le (K := ℝ)).mpr hd
  have hlo' := (Rat.cast_le (K := ℝ)).mpr hlo
  have hhi' := (Rat.cast_le (K := ℝ)).mpr hhi
  have hu' := (Rat.cast_le (K := ℝ)).mpr hu
  have hl' := (Rat.cast_le (K := ℝ)).mpr hl
  have hc0 : ((cosTaylor z0 : ℚ) : ℝ)
      = 1 - (z0 : ℝ) ^ 2 / 2 + (z0 : ℝ) ^ 4 / 24 - (z0 : ℝ) ^ 6 / 720 := by
    simp [cosTaylor]
  push_cast at hz0l' hz0u' hd' hlo' hhi' hu' hl' ⊢
  have hn : (0 : ℝ) ≤ n := Nat.cast_nonneg n
  have hpl : (314159265358979323846 / 10 ^ 20 : ℝ) < Real.pi := by
    have h := Real.pi_gt_d20
    norm_num at h ⊢
    exact h
  have hpu : Real.pi < (314159265358979323847 / 10 ^ 20 : ℝ) := by
    have h := Real.pi_lt_d20
    norm_num at h ⊢
    exact h
  -- the reduced argument
  have hzd : |((s : ℝ) * x - n * Real.pi) / 2 - z0| ≤ d := by
    have e1 := mul_le_mul_of_nonneg_left hpl.le hn
    have e2 := mul_le_mul_of_nonneg_left hpu.le hn
    rw [abs_le]
    constructor <;> linarith only [e1, e2, hlo', hhi']
  have hsx : Real.cos ((s : ℝ) * x) = Real.cos x := by
    rcases hs with h | h <;> simp [h]
  have hred : Real.cos x
      = (-1) ^ n * (2 * Real.cos (((s : ℝ) * x - n * Real.pi) / 2) ^ 2 - 1) := by
    rw [← Real.cos_two_mul, mul_div_cancel₀ _ (two_ne_zero), Real.cos_sub_nat_mul_pi, hsx,
      ← mul_assoc, ← pow_add, ← two_mul, pow_mul]
    norm_num
  -- the cosine of the reduced argument against the Taylor value at `z0`
  have htaylor : |Real.cos (z0 : ℝ) - (cosTaylor z0 : ℝ)| ≤ 1 / 35840 := by
    rw [hc0]
    exact cos_sub_taylor_le (z0 : ℝ) (abs_le.mpr ⟨hz0l', hz0u'⟩)
  have hlip := (cos_sub_cos_le (((s : ℝ) * x - n * Real.pi) / 2) z0).trans hzd
  rw [hred]
  exact abs_double_sub_le _ (cosTaylor z0 : ℝ) (Real.cos z0) d e _ (neg_one_pow_eq_or ℝ n)
    htaylor hlip (Real.abs_cos_le_one _) hd' hu' hl'

/-! ## C6: the `cos` fixtures against the real cosine -/

/-- The 24 input and expected values of the tensor cases of `cosTests`: each expected
value is within 1/1024 of the cosine of its input. -/
theorem cos_tensor_data_within_tolerance :
    List.Forall₂ (cosWithin (1 / 1024))
      [85.56369018554688, -45.09983825683594, -94.67750549316406,
       83.49029541015625, -31.367904663085938, 70.18042755126953,
       -90.36229705810547, -83.00758361816406, 61.51649475097656,
       -32.51877975463867, -48.3765869140625, -58.02735900878906,
       89.79197692871094, -84.53326416015625, -58.23252487182617,
       -76.14168548583984, -59.058876037597656, 77.38546752929688,
       -98.67289733886719, -63.6115608215332, 26.85724639892578,
       83.70417022705078, 76.56607055664062, -47.83436584472656]
      [-0.7380040884017944, 0.43789437413215637, 0.9090799689292908,
       -0.23584702610969543, 0.9988471865653992, 0.48416373133659363,
       -0.7358400821685791, 0.24218930304050446, 0.25266921520233154,
       0.4510514736175537, -0.31276169419288635, 0.09197491407394409,
       -0.2537800967693329, -0.9583188891410828, -0.11282006651163101,
       0.736129879951477, -0.80721116065979, -0.4045141637325287,
       -0.283336341381073, 0.7111190557479858, -0.1531042903661728,
       -0.43673399090766907, 0.39213326573371887, -0.7580515146255493] := by
  refine List.Forall₂.cons
    (abs_cos_sub_le_of_certificate 85.56369018554688 (-0.7380040884017944) 1 0.370344 0.000001 27
      (by norm_num) (by norm_num) (by norm_num) (by norm_num) (by norm_num) (by norm_num)
      (by norm_num [cosTaylor]) (by norm_num [cosTaylor])) ?_
  refine List.Forall₂.cons
    (abs_cos_sub_le_of_certificate (-45.09983825683594) 0.43789437413215637 (-1) 0.558771 0.000001 14
      (by norm_num) (by norm_num) (by norm_num) (by norm_num) (by norm_num) (by norm_num)
      (by norm_num [cosTaylor]) (by norm_num [cosTaylor])) ?_
  refine List.Forall₂.cons
    (abs_cos_sub_le_of_certificate (-94.67750549316406) 0.9090799689292908 (-1) 0.214863 0.000001 30
      (by norm_num) (by norm_num) (by norm_num) (by norm_num) (by norm_num) (by norm_num)
      (by norm_num [cosTaylor]) (by norm_num [cosTaylor])) ?_
  refine List.Forall₂.cons
    (abs_cos_sub_le_of_certificate 83.49029541015625 (-0.23584702610969543) 1 (-0.666353) 0.000001 27
      (by norm_num) (by norm_num) (by norm_num) (by norm_num) (by norm_num) (by norm_num)
      (by norm_num [cosTaylor]) (by norm_num [cosTaylor])) ?_
  refine List.Forall₂.cons
    (abs_cos_sub_le_of_certificate (-31.367904663085938) 0.9988471865653992 (-1) (-0.024011) 0.000001 10
      (by norm_num) (by norm_num) (by norm_num) (by norm_num) (by norm_num) (by norm_num)
      (by norm_num [cosTaylor]) (by norm_num [cosTaylor])) ?_
  refine List.Forall₂.cons
    (abs_cos_sub_le_of_certificate 70.18042755126953 0.48416373133659363 1 0.532695 0.000001 22
      (by norm_num) (by norm_num) (by norm_num) (by norm_num) (by norm_num) (by norm_num)
      (by norm_num [cosTaylor]) (by norm_num [cosTaylor])) ?_
  refine List.Forall₂.cons
    (abs_cos_sub_le_of_certificate (-90.36229705810547) (-0.7358400821685791) (-1) (-0.371945) 0.000001 29
      (by norm_num) (by norm_num) (by norm_num) (by norm_num) (by norm_num) (by norm_num)
      (by norm_num [cosTaylor]) (by norm_num [cosTaylor])) ?_
  refine List.Forall₂.cons
    (abs_cos_sub_le_of_certificate (-83.00758361816406) 0.24218930304050446 (-1) 0.663087 0.000001 26
      (by norm_num) (by norm_num) (by norm_num) (by norm_num) (by norm_num) (by norm_num)
      (by norm_num [cosTaylor]) (by norm_num [cosTaylor])) ?_
  refine List.Forall₂.cons
    (abs_cos_sub_le_of_certificate 61.51649475097656 0.25266921520233154 1 (-0.657679) 0.000001 20
      (by norm_num) (by norm_num) (by norm_num) (by norm_num) (by norm_num) (by norm_num)
      (by norm_num [cosTaylor]) (by norm_num [cosTaylor])) ?_
  refine List.Forall₂.cons
    (abs_cos_sub_le_of_certificate (-32.51877975463867) 0.4510514736175537 (-1) 0.551427 0.000001 10
      (by norm_num) (by norm_num) (by norm_num) (by norm_num) (by norm_num) (by norm_num)
      (by norm_num [cosTaylor]) (by norm_num [cosTaylor])) ?_
  refine List.Forall₂.cons
    (abs_cos_sub_le_of_certificate (-48.3765869140625) (-0.31276169419288635) (-1) 0.626349 0.000001 15
      (by norm_num) (by norm_num) (by norm_num) (by norm_num) (by norm_num) (by norm_num)
      (by norm_num [cosTaylor]) (by norm_num [cosTaylor])) ?_
  refine List.Forall₂.cons
    (abs_cos_sub_le_of_certificate (-58.02735900878906) 0.09197491407394409 (-1) 0.739346 0.000001 18
      (by norm_num) (by norm_num) (by norm_num) (by norm_num) (by norm_num) (by norm_num)
      (by norm_num [cosTaylor]) (by norm_num [cosTaylor])) ?_
  refine List.Forall₂.cons
    (abs_cos_sub_le_of_certificate 89.79197692871094 (-0.2537800967693329) 1 (-0.657105) 0.000001 29
      (by norm_num) (by norm_num) (by norm_num) (by norm_num) (by norm_num) (by norm_num)
      (by norm_num [cosTaylor]) (by norm_num [cosTaylor])) ?_
  refine List.Forall₂.cons
    (abs_cos_sub_le_of_certificate (-84.53326416015625) (-0.9583188891410828) (-1) (-0.144869) 0.000001 27
      (by norm_num) (by norm_num) (by norm_num) (by norm_num) (by norm_num) (by norm_num)
      (by norm_num [cosTaylor]) (by norm_num [cosTaylor])) ?_
  refine List.Forall₂.cons
    (abs_cos_sub_le_of_certificate (-58.23252487182617) (-0.11282006651163101) (-1) (-0.728868) 0.000001 19
      (by norm_num) (by norm_num) (by norm_num) (by norm_num) (by norm_num) (by norm_num)
      (by norm_num [cosTaylor]) (by norm_num [cosTaylor])) ?_
  refine List.Forall₂.cons
    (abs_cos_sub_le_of_certificate (-76.14168548583984) 0.736129879951477 (-1) 0.371731 0.000001 24
      (by norm_num) (by norm_num) (by norm_num) (by norm_num) (by norm_num) (by norm_num)
      (by norm_num [cosTaylor]) (by norm_num [cosTaylor])) ?_
  refine List.Forall₂.cons
    (abs_cos_sub_le_of_certificate (-59.058876037597656) (-0.80721116065979) (-1) (-0.315692) 0.000001 19
      (by norm_num) (by norm_num) (by norm_num) (by norm_num) (by norm_num) (by norm_num)
      (by norm_num [cosTaylor]) (by norm_num [cosTaylor])) ?_
  refine List.Forall₂.cons
    (abs_cos_sub_le_of_certificate 77.38546752929688 (-0.4045141637325287) 1 (-0.577174) 0.000001 25
      (by norm_num) (by norm_num) (by norm_num) (by norm_num) (by norm_num) (by norm_num)
      (by norm_num [cosTaylor]) (by norm_num [cosTaylor])) ?_
  refine List.Forall₂.cons
    (abs_cos_sub_le_of_certificate (-98.67289733886719) (-0.283336341381073) (-1) 0.641763 0.000001 31
      (by norm_num) (by norm_num) (by norm_num) (by norm_num) (by norm_num) (by norm_num)
      (by norm_num [cosTaylor]) (by norm_num [cosTaylor])) ?_
  refine List.Forall₂.cons
    (abs_cos_sub_le_of_certificate (-63.6115608215332) 0.7111190557479858 (-1) 0.389854 0.000001 20
      (by norm_num) (by norm_num) (by norm_num) (by norm_num) (by norm_num) (by norm_num)
      (by norm_num [cosTaylor]) (by norm_num [cosTaylor])) ?_
  refine List.Forall₂.cons
    (abs_cos_sub_le_of_certificate 26.85724639892578 (-0.1531042903661728) 1 (-0.708544) 0.000001 9
      (by norm_num) (by norm_num) (by norm_num) (by norm_num) (by norm_num) (by norm_num)
      (by norm_num [cosTaylor]) (by norm_num [cosTaylor])) ?_
  refine List.Forall₂.cons
    (abs_cos_sub_le_of_certificate 83.70417022705078 (-0.43673399090766907) 1 (-0.559416) 0.000001 27
      (by norm_num) (by norm_num) (by norm_num) (by norm_num) (by norm_num) (by norm_num)
      (by norm_num [cosTaylor]) (by norm_num [cosTaylor])) ?_
  refine List.Forall₂.cons
    (abs_cos_sub_le_of_certificate 76.56607055664062 0.39213326573371887 1 0.583923 0.000001 24
      (by norm_num) (by norm_num) (by norm_num) (by norm_num) (by norm_num) (by norm_num)
      (by norm_num [cosTaylor]) (by norm_num [cosTaylor])) ?_
  refine List.Forall₂.cons
    (abs_cos_sub_le_of_certificate (-47.83436584472656) (-0.7580515146255493) (-1) 0.355238 0.000001 15
      (by norm_num) (by norm_num) (by norm_num) (by norm_num) (by norm_num) (by norm_num)
      (by norm_num [cosTaylor]) (by norm_num [cosTaylor])) ?_
  exact List.Forall₂.nil

/-- The input and expected value of the 0D scalar case of `cosTests`. -/
theorem cos_scalar_data_within_tolerance :
    List.Forall₂ (cosWithin (1 / 1024)) [85.56369018554688] [-0.7380040884017944] :=
  List.Forall₂.cons
    (abs_cos_sub_le_of_certificate 85.56369018554688 (-0.7380040884017944) 1 0.370344 0.000001 27
      (by norm_num) (by norm_num) (by norm_num) (by norm_num) (by norm_num) (by norm_num)
      (by norm_num [cosTaylor]) (by norm_num [cosTaylor]))
    List.Forall₂.nil

theorem forallTwo_index {R : ℚ → ℚ → Prop} {xs es : List ℚ} (h : List.Forall₂ R xs es) :
    es.length = xs.length ∧
      ∀ (i : ℕ) (hi : i < xs.length) (ho : i < es.length), R xs[i] es[i] :=
  ⟨h.length_eq.symm, fun _ hi ho => h.get hi ho⟩

/-- C6: for every test case of `cosTests`, `getCosPrecisionTolerance` resolves the
tolerance 1/1024 (metric `'ATOL'`), the input and expected sequences have the same
length, and every expected element is within that tolerance of the real-number cosine
of the input element at the same index. -/
theorem cos_expected_within_tolerance :
    ∀ tc ∈ cosTests, ∃ value : ℚ,
      getCosPrecisionTolerance tc.graph
        = Except.ok { metricType := "ATOL", value := JSValue.number value } ∧
      value = 1 / 1024 ∧
      ∀ inp ∈ tc.graph.inputs, ∀ out ∈ tc.graph.expectedOutputs,
        out.2.data.length = inp.2.data.length ∧
        ∀ (i : ℕ) (hi : i < inp.2.data.length) (ho : i < out.2.data.length),
          |Real.cos ((inp.2.data[i] : ℚ) : ℝ) - ((out.2.data[i] : ℚ) : ℝ)| ≤ (value : ℝ) := by
  intro tc htc
  simp only [cosTests, List.mem_cons, List.mem_singleton, List.not_mem_nil, or_false] at htc
  rcases htc with rfl | rfl | rfl | rfl | rfl | rfl | rfl
  · refine ⟨1 / 1024, getCos_float32 _ "cosOutput" _ rfl rfl, rfl, ?_⟩
    intro inp hinp out hout
    rw [List.mem_singleton] at hinp hout
    subst hinp hout
    exact forallTwo_index cos_scalar_data_within_tolerance
  all_goals
    refine ⟨1 / 1024, getCos_float32 _ "cosOutput" _ rfl rfl, rfl, ?_⟩
    intro inp hinp out hout
    rw [List.mem_singleton] at hinp hout
    subst hinp hout
    exact forallTwo_index cos_tensor_data_within_tolerance

theorem cos_expected_within_tolerance_witness :
    cosScalarCase ∈ cosTests ∧ ∃ value : ℚ,
      getCosPrecisionTolerance cosScalarCase.graph
        = Except.ok { metricType := "ATOL", value := JSValue.number value } ∧
      value = 1 / 1024 ∧
      ∀ inp ∈ cosScalarCase.graph.inputs, ∀ out ∈ cosScalarCase.graph.expectedOutputs,
        out.2.data.length = inp.2.data.length ∧
        ∀ (i : ℕ) (hi : i < inp.2.data.length) (ho : i < out.2.data.length),
          |Real.cos ((inp.2.data[i] : ℚ) : ℝ) - ((out.2.data[i] : ℚ) : ℝ)| ≤ (value : ℝ) :=
  ⟨by simp [cosTests, cosScalarCase, float32CosGraph],
   cos_expected_within_tolerance cosScalarCase
     (by simp [cosTests, cosScalarCase, float32CosGraph])⟩

/-! ## C7: one flat sequence under every shape -/

/-- Every case of rank 1 to 5 of a suite has the data of the suite's 1D constant
case, the graph of that case once shapes and `constant` flags are forgotten, and the
graph, shapes forgotten, of the suite's 1D constant case or 1D case according to its
`constant` flag. -/
theorem tensor_case_normal_form (other : TestCase) :
    ∀ suite ∈ [cosTests, negTests], ∀ tc ∈ suite, isTensorCase tc = true →
      inputData tc = inputData (suite.getD (suite.length - 6) other) ∧
      expectedData tc = expectedData (suite.getD (suite.length - 6) other) ∧
      (inputData tc).map List.length = [24] ∧
      (expectedData tc).map List.length = [24] ∧
      (constantFlags tc = [some true] ∨ constantFlags tc = [none]) ∧
      (constantFlags tc = [some true] → tc.graph.withoutShapes
        = (suite.getD (suite.length - 6) other).graph.withoutShapes) ∧
      (constantFlags tc = [none] → tc.graph.withoutShapes
        = (suite.getD (suite.length - 5) other).graph.withoutShapes) ∧
      tc.graph.withoutShapes.withoutConstantFlags
        = (suite.getD (suite.length - 6) other).graph.withoutShapes.withoutConstantFlags := by
  intro suite hs tc htc
  simp only [List.mem_cons, List.mem_singleton, List.not_mem_nil, or_false] at hs
  rcases hs with rfl | rfl
  · simp only [cosTests, List.mem_cons, List.mem_singleton, List.not_mem_nil, or_false] at htc
    rcases htc with rfl | rfl | rfl | rfl | rfl | rfl | rfl
    · intro h; exact absurd h (by decide)
    · intro _
      exact ⟨rfl, rfl, rfl, rfl, by decide, fun _ => rfl, fun h => absurd h (by decide), rfl⟩
    all_goals
      intro _
      exact ⟨rfl, rfl, rfl, rfl, by decide, fun h => absurd h (by decide), fun _ => rfl, rfl⟩
  · simp only [negTests, List.mem_cons, List.mem_singleton, List.not_mem_nil, or_false] at htc
    rcases htc with rfl | rfl | rfl | rfl | rfl | rfl | rfl | rfl
    · intro h; exact absurd h (by decide)
    · intro h; exact absurd h (by decide)
    · intro _
      exact ⟨rfl, rfl, rfl, rfl, by decide, fun _ => rfl, fun h => absurd h (by decide), rfl⟩
    all_goals
      intro _
      exact ⟨rfl, rfl, rfl, rfl, by decide, fun h => absurd h (by decide), fun _ => rfl, rfl⟩

/-- C7, as stated, fails: the 1D constant case and the 1D case of `cosTests` are both
among the 1D to 5D cases and declare the same shape `[24]`, yet their graphs differ,
by the `constant` flag of the input; so the 1D to 5D cases do not differ in the
declared shape only. -/
theorem constant_case_differs_beyond_shape :
    isTensorCase (cosTests.get ⟨1, by decide⟩) = true ∧
      isTensorCase (cosTests.get ⟨2, by decide⟩) = true ∧
      inputShapes [cosTests.get ⟨1, by decide⟩] = [[[24]]] ∧
      inputShapes [cosTests.get ⟨2, by decide⟩] = [[[24]]] ∧
      constantFlags (cosTests.get ⟨1, by decide⟩) = [some true] ∧
      constantFlags (cosTests.get ⟨2, by decide⟩) = [none] ∧
      (cosTests.get ⟨1, by decide⟩).graph ≠ (cosTests.get ⟨2, by decide⟩).graph ∧
      (cosTests.get ⟨1, by decide⟩).graph.withoutShapes
        ≠ (cosTests.get ⟨2, by decide⟩).graph.withoutShapes ∧
      ¬ (∀ suite ∈ [cosTests, negTests], ∀ tc1 ∈ suite, ∀ tc2 ∈ suite,
          isTensorCase tc1 = true → isTensorCase tc2 = true →
            tc1.graph.withoutShapes = tc2.graph.withoutShapes) := by
  have hflags : constantFlags (cosTests.get ⟨1, by decide⟩)
      ≠ constantFlags (cosTests.get ⟨2, by decide⟩) := by decide
  have hgraph : (cosTests.get ⟨1, by decide⟩).graph ≠ (cosTests.get ⟨2, by decide⟩).graph :=
    fun h => hflags (congrArg (fun g => g.inputs.map (fun p => p.2.constant)) h)
  have hshapeless : (cosTests.get ⟨1, by decide⟩).graph.withoutShapes
      ≠ (cosTests.get ⟨2, by decide⟩).graph.withoutShapes :=
    fun h => hflags (congrArg (fun g => g.inputs.map (fun p => p.2.constant)) h)
  refine ⟨by decide, by decide, by decide, by decide, by decide, by decide, hgraph,
    hshapeless, ?_⟩
  intro hall
  exact hshapeless (hall cosTests (by simp)
    (cosTests.get ⟨1, by decide⟩) (List.get_mem _ _ _)
    (cosTests.get ⟨2, by decide⟩) (List.get_mem _ _ _) (by decide) (by decide))

/-- C7, amended: within `cosTests`, and likewise within `negTests`, the cases of rank 1
to 5 (1D constant, 1D, 2D, 3D, 4D, 5D) all carry the same flat input sequence and the
same flat expected-output sequence, of 24 elements each; their graphs differ in the
declared shapes and in the `constant` flag of the input only, and two of them with the
same `constant` flag differ in the declared shapes only.  Hence whatever the runner's
comparison (not among the sources, so a parameter here) computes from an actual output
and the flat expected data is the same for each of these shapes. -/
theorem tensor_cases_share_flat_data :
    inputShapes cosTests
        = [[[]], [[24]], [[24]], [[4, 6]], [[2, 3, 4]], [[2, 2, 2, 3]], [[2, 1, 4, 1, 3]]] ∧
      inputShapes negTests
        = [[[]], [[]], [[24]], [[24]], [[4, 6]], [[2, 3, 4]], [[2, 2, 2, 3]], [[2, 1, 4, 1, 3]]] ∧
      ∀ suite ∈ [cosTests, negTests], ∀ tc1 ∈ suite, ∀ tc2 ∈ suite,
        isTensorCase tc1 = true → isTensorCase tc2 = true →
          inputData tc1 = inputData tc2 ∧ expectedData tc1 = expectedData tc2 ∧
          (inputData tc1).map List.length = [24] ∧
          (expectedData tc1).map List.length = [24] ∧
          tc1.graph.withoutShapes.withoutConstantFlags
            = tc2.graph.withoutShapes.withoutConstantFlags ∧
          (constantFlags tc1 = constantFlags tc2 →
            tc1.graph.withoutShapes = tc2.graph.withoutShapes) ∧
          ∀ (β : Type) (compare : List (List ℚ) → List (List ℚ) → β) (actual : List (List ℚ)),
            compare actual (expectedData tc1) = compare actual (expectedData tc2) := by
  refine ⟨by decide, by decide, ?_⟩
  intro suite hs tc1 h1 tc2 h2 hn1 hn2
  have hc := tensor_case_normal_form tc1 suite hs tc1 h1 hn1
  have hd := tensor_case_normal_form tc1 suite hs tc2 h2 hn2
  have hexp : expectedData tc1 = expectedData tc2 := hc.2.1.trans hd.2.1.symm
  refine ⟨hc.1.trans hd.1.symm, hexp, hc.2.2.1, hc.2.2.2.1,
    hc.2.2.2.2.2.2.2.trans hd.2.2.2.2.2.2.2.symm, ?_, ?_⟩
  · intro hflags
    rcases hc.2.2.2.2.1 with hf | hf
    · exact (hc.2.2.2.2.2.1 hf).trans (hd.2.2.2.2.2.1 (hflags ▸ hf)).symm
    · exact (hc.2.2.2.2.2.2.1 hf).trans (hd.2.2.2.2.2.2.1 (hflags ▸ hf)).symm
  · intro β compare actual
    rw [hexp]

theorem tensor_cases_share_flat_data_witness :
    negTests ∈ [cosTests, negTests] ∧
      isTensorCase (negTests.get ⟨3, by decide⟩) = true ∧
      isTensorCase (negTests.get ⟨7, by decide⟩) = true ∧
      constantFlags (negTests.get ⟨3, by decide⟩) = constantFlags (negTests.get ⟨7, by decide⟩) ∧
      inputData (negTests.get ⟨3, by decide⟩) = inputData (negTests.get ⟨7, by decide⟩) ∧
      expectedData (negTests.get ⟨3, by decide⟩) = expectedData (negTests.get ⟨7, by decide⟩) ∧
      (negTests.get ⟨3, by decide⟩).graph.withoutShapes.withoutConstantFlags
        = (negTests.get ⟨7, by decide⟩).graph.withoutShapes.withoutConstantFlags ∧
      (negTests.get ⟨3, by decide⟩).graph.withoutShapes
        = (negTests.get ⟨7, by decide⟩).graph.withoutShapes :=
  have h := tensor_cases_share_flat_data.2.2 negTests (by simp)
    (negTests.get ⟨3, by decide⟩) (List.get_mem _ _ _)
    (negTests.get ⟨7, by decide⟩) (List.get_mem _ _ _) (by decide) (by decide)
  ⟨by simp, by decide, by decide, by decide, h.1, h.2.1, h.2.2.2.2.1,
    h.2.2.2.2.2.1 (by decide)⟩

/-! ## C8: the tolerance depends on the data type only -/

/-- C8: the tolerance is determined by the output data type alone (and by the
operator, each operator having its own resolver): two graphResources whose expected
outputs resolve to the same data type get equal results from
`getCosPrecisionTolerance`, and equal results from `getNegPrecisionTolerance`,
whatever their inputs, operators, shapes, names and data are. -/
theorem tolerance_depends_only_on_data_type (g1 g2 : Graph) (dataType : String)
    (h1 : getExpectedDataTypeOfSingleOutput g1.expectedOutputs = Except.ok dataType)
    (h2 : getExpectedDataTypeOfSingleOutput g2.expectedOutputs = Except.ok dataType) :
    getCosPrecisionTolerance g1 = getCosPrecisionTolerance g2 ∧
      getNegPrecisionTolerance g1 = getNegPrecisionTolerance g2 := by
  simp [getCosPrecisionTolerance, getNegPrecisionTolerance, h1, h2]

theorem tolerance_depends_only_on_data_type_witness :
    getCosPrecisionTolerance float32CosGraph = getCosPrecisionTolerance negScalarCase.graph ∧
      getNegPrecisionTolerance float32CosGraph = getNegPrecisionTolerance negScalarCase.graph :=
  tolerance_depends_only_on_data_type float32CosGraph negScalarCase.graph "float32" rfl rfl

/-! ## C9: the fixtures are well formed -/

/-- C9: in every test case of `cosTests` and `negTests`, every operator argument
binding names a key of the declared inputs, every key of `expectedOutputs` is the
output name of an operator of the case, and the expected output has the same shape and
the same data type as every input tensor that the producing operator consumes (and
the producing operator does consume a declared input). -/
theorem fixtures_are_well_formed :
    ∀ tc ∈ cosTests ++ negTests,
      (∀ op ∈ tc.graph.operators, ∀ arg ∈ op.arguments, ∀ binding ∈ arg,
        binding.2 ∈ tc.graph.inputs.map Prod.fst) ∧
      (∀ out ∈ tc.graph.expectedOutputs,
        (∃ op ∈ tc.graph.operators, op.outputs = out.1 ∧
          ∃ arg ∈ op.arguments, ∃ binding ∈ arg, ∃ inp ∈ tc.graph.inputs,
            inp.1 = binding.2) ∧
        ∀ op ∈ tc.graph.operators, op.outputs = out.1 →
          ∀ arg ∈ op.arguments, ∀ binding ∈ arg, ∀ inp ∈ tc.graph.inputs,
            inp.1 = binding.2 →
              out.2.descriptor.shape = inp.2.descriptor.shape ∧
              out.2.descriptor.dataType = inp.2.descriptor.dataType) := by
  decide

theorem fixtures_are_well_formed_witness :
    negScalarCase ∈ cosTests ++ negTests ∧
      (∀ op ∈ negScalarCase.graph.operators, ∀ arg ∈ op.arguments, ∀ binding ∈ arg,
        binding.2 ∈ negScalarCase.graph.inputs.map Prod.fst) ∧
      (∀ out ∈ negScalarCase.graph.expectedOutputs,
        (∃ op ∈ negScalarCase.graph.operators, op.outputs = out.1 ∧
          ∃ arg ∈ op.arguments, ∃ binding ∈ arg, ∃ inp ∈ negScalarCase.graph.inputs,
            inp.1 = binding.2) ∧
        ∀ op ∈ negScalarCase.graph.operators, op.outputs = out.1 →
          ∀ arg ∈ op.arguments, ∀ binding ∈ arg, ∀ inp ∈ negScalarCase.graph.inputs,
            inp.1 = binding.2 →
              out.2.descriptor.shape = inp.2.descriptor.shape ∧
              out.2.descriptor.dataType = inp.2.descriptor.dataType) :=
  ⟨by simp [cosTests, negTests, negScalarCase],
   fixtures_are_well_formed negScalarCase (by simp [cosTests, negTests, negScalarCase])⟩

/-! ## C10: one expected output per fixture -/

/-- C10: every test case of `cosTests` and `negTests` declares exactly one tensor in
`expectedOutputs`, and that tensor is the output of an operator of the case; so the
data type of the single output resolves (to float32) and no case is an
`InvalidFixture`. -/
theorem fixtures_declare_one_output :
    ∀ tc ∈ cosTests ++ negTests,
      tc.graph.expectedOutputs.length = 1 ∧
      (∀ out ∈ tc.graph.expectedOutputs, ∃ op ∈ tc.graph.operators, op.outputs = out.1) ∧
      getExpectedDataTypeOfSingleOutput tc.graph.expectedOutputs = Except.ok "float32" ∧
      getExpectedDataTypeOfSingleOutput tc.graph.expectedOutputs
        ≠ Except.error Error.InvalidFixture := by
  simp [cosTests, negTests, getExpectedDataTypeOfSingleOutput]

theorem fixtures_declare_one_output_witness :
    negScalarCase ∈ cosTests ++ negTests ∧
      negScalarCase.graph.expectedOutputs.length = 1 ∧
      (∀ out ∈ negScalarCase.graph.expectedOutputs,
        ∃ op ∈ negScalarCase.graph.operators, op.outputs = out.1) ∧
      getExpectedDataTypeOfSingleOutput negScalarCase.graph.expectedOutputs
        = Except.ok "float32" ∧
      getExpectedDataTypeOfSingleOutput negScalarCase.graph.expectedOutputs
        ≠ Except.error Error.InvalidFixture :=
  ⟨by simp [cosTests, negTests, negScalarCase],
   fixtures_declare_one_output negScalarCase (by simp [cosTests, negTests, negScalarCase])⟩

/-! ## C11: names are unique within a suite -/

/-- C11: no two entries of `cosTests` have the same `'name'`, and no two entries of
`negTests` have the same `'name'`. -/
theorem test_names_are_unique :
    (cosTests.map (fun tc => tc.name)).Nodup ∧ (negTests.map (fun tc => tc.name)).Nodup ∧
      cosTests.Pairwise (fun tc1 tc2 => tc1.name ≠ tc2.name) ∧
      negTests.Pairwise (fun tc1 tc2 => tc1.name ≠ tc2.name) := by
  refine ⟨by decide, by decide, by decide, by decide⟩

/-! ## C12: the abort tests and the verdict of the checker -/

/-- C12 fails on the code: when the promise returned by `testAbort(t, factory)` is
rejected with an abort-contract violation (and `ai.languageModel.create()` has
fulfilled, for the clone and prompt tests), the promise returned by the body of each of
the three tests is fulfilled, not rejected; it is fulfilled however the promise of
`testAbort` settles. -/
theorem abort_test_bodies_fulfil_despite_violation :
    abortCreateTest (Completion.returns (Settlement.rejected Reason.IgnoredCancellation))
        = Settlement.fulfilled ∧
      abortCloneTest (Completion.returns Settlement.fulfilled)
        (Completion.returns (Settlement.rejected Reason.IgnoredCancellation))
        = Settlement.fulfilled ∧
      abortPromptTest (Completion.returns Settlement.fulfilled)
        (Completion.returns (Settlement.rejected Reason.WrongErrorKind))
        = Settlement.fulfilled ∧
      (¬ ∃ r : Reason,
        abortCreateTest (Completion.returns (Settlement.rejected Reason.IgnoredCancellation))
          = Settlement.rejected r) ∧
      ∀ promise : Settlement,
        abortCreateTest (Completion.returns promise) = Settlement.fulfilled ∧
        abortCloneTest (Completion.returns Settlement.fulfilled) (Completion.returns promise)
          = Settlement.fulfilled ∧
        abortPromptTest (Completion.returns Settlement.fulfilled) (Completion.returns promise)
          = Settlement.fulfilled := by
  refine ⟨rfl, rfl, rfl, ?_, fun _ => ⟨rfl, rfl, rfl⟩⟩
  rintro ⟨r, hr⟩
  have h : Settlement.fulfilled = Settlement.rejected r := hr
  cases h

/-! ## C13: what the files register -/

theorem foldl_append_singleton {α β : Type} (f : α → β) (l : List α) (acc : List β) :
    l.foldl (fun registered x => registered ++ [f x]) acc = acc ++ l.map f := by
  induction l generalizing acc with
  | nil => simp
  | cons x xs ih => simp [ih]

/-- C13, as stated, fails: with `navigator.ml` available the neg file registers 8
conformance tests, one per entry of `negTests`, not 9. -/
theorem neg_file_registers_eight_tests :
    negTests.length = 8 ∧ (registerNegTests true).length = 8 ∧
      (registerNegTests true).length ≠ 9 := by
  have h : (registerNegTests true).length = 8 := by
    simp [registerNegTests, foldl_append_singleton, negTests]
  exact ⟨rfl, h, by rw [h]; decide⟩

/-- C13, amended: with `navigator.ml` available the cos file registers exactly one
conformance test per entry of `cosTests` (7) and the neg file exactly one per entry of
`negTests` (8), in fixture order, each with `buildAndExecuteGraph`, the operator's own
tolerance resolver and the unmodified fixture; with `navigator.ml` unavailable each
file hands no fixture to the harness and registers exactly one test, which asserts
the missing capability. -/
theorem files_register_one_test_per_fixture :
    registerCosTests true
        = cosTests.map (fun test => Registration.webnn_conformance_test
            GraphRunner.buildAndExecuteGraph getCosPrecisionTolerance test) ∧
      (registerCosTests true).length = 7 ∧
      fixturesOf (registerCosTests true) = cosTests ∧
      registerNegTests true
        = negTests.map (fun test => Registration.webnn_conformance_test
            GraphRunner.buildAndExecuteGraph getNegPrecisionTolerance test) ∧
      (registerNegTests true).length = 8 ∧
      fixturesOf (registerNegTests true) = negTests ∧
      registerCosTests false
        = [Registration.test { condition := false, description := "missing navigator.ml" }] ∧
      fixturesOf (registerCosTests false) = [] ∧
      registerNegTests false
        = [Registration.test { condition := false, description := "missing navigator.ml" }] ∧
      fixturesOf (registerNegTests false) = [] := by
  have hmap : ∀ (f : Graph → Except Error Tolerance) (l : List TestCase),
      fixturesOf (l.map (fun test => Registration.webnn_conformance_test
        GraphRunner.buildAndExecuteGraph f test)) = l := by
    intro f l
    induction l with
    | nil => rfl
    | cons x xs ih =>
      simp only [fixturesOf, List.map_cons, List.filterMap_cons] at ih ⊢
      rw [ih]
  have hc : registerCosTests true
      = cosTests.map (fun test => Registration.webnn_conformance_test
          GraphRunner.buildAndExecuteGraph getCosPrecisionTolerance test) := by
    simp [registerCosTests, foldl_append_singleton]
  have hn : registerNegTests true
      = negTests.map (fun test => Registration.webnn_conformance_test
          GraphRunner.buildAndExecuteGraph getNegPrecisionTolerance test) := by
    simp [registerNegTests, foldl_append_singleton]
  refine ⟨hc, ?_, ?_, hn, ?_, ?_, rfl, rfl, rfl, rfl⟩
  · rw [hc, List.length_map]; rfl
  · rw [hc, hmap]
  · rw [hn, List.length_map]; rfl
  · rw [hn, hmap]

/-! ## C14: element counts and shapes -/

/-- C14: for every input tensor and every expected-output tensor of every test case of
`cosTests` and `negTests`, the number of elements of `'data'` is the product of the
dimensions of the declared shape, the empty shape having product 1; so a 0D scalar
carries exactly one element, as a tensor of shape `[1]` would. -/
theorem data_length_is_shape_product :
    ∀ tc ∈ cosTests ++ negTests, ∀ p ∈ tc.graph.inputs ++ tc.graph.expectedOutputs,
      p.2.data.length = p.2.descriptor.shape.prod ∧
      (p.2.descriptor.shape = [] → p.2.data.length = 1 ∧ p.2.data.length = [1].prod) := by
  decide

theorem data_length_is_shape_product_witness :
    negScalarCase ∈ cosTests ++ negTests ∧
      ∀ p ∈ negScalarCase.graph.inputs ++ negScalarCase.graph.expectedOutputs,
        p.2.data.length = p.2.descriptor.shape.prod ∧
        (p.2.descriptor.shape = [] → p.2.data.length = 1 ∧ p.2.data.length = [1].prod) :=
  ⟨by simp [cosTests, negTests, negScalarCase],
   data_length_is_shape_product negScalarCase (by simp [cosTests, negTests, negScalarCase])⟩

end WebNN
